import Mathlib

/-!
Shallow embedding of the InvoiceFlow invoicing service
(routes/invoices.js, routes/webhooks.js, middleware/auth.js, database schema).

Monetary values are modelled as exact rationals (the JS code computes with
JavaScript numbers; none of the verified claims depends on binary
floating-point rounding, and the route-level arithmetic is what the claims
quote).  Timestamps and row ids are natural numbers: `uuidv4()` results and
`new Date()` readings are inputs supplied by the environment, so they appear
as explicit context fields.  The relational store is a record of lists, one
per table, with the uniqueness constraints of database/schema.sql enforced at
insertion exactly where PostgreSQL would reject the insert.
-/

namespace InvoiceFlow

/-- Invoice status enum, `CHECK (status IN ('draft','pending','paid','overdue','cancelled'))`. -/
inductive Status
  | draft
  | pending
  | paid
  | overdue
  | cancelled
deriving DecidableEq, Repr, Inhabited

/-- User plan enum, `CHECK (plan IN ('free','pro','business'))`. -/
inductive Plan
  | free
  | pro
  | business
deriving DecidableEq, Repr, Inhabited

/-- Payment status enum, `CHECK (status IN ('pending','completed','failed','refunded'))`. -/
inductive PayStatus
  | pending
  | completed
  | failed
  | refunded
deriving DecidableEq, Repr, Inhabited

/-- Subscription status enum, `CHECK (status IN ('active','cancelled','past_due','trialing'))`. -/
inductive SubStatus
  | active
  | cancelled
  | past_due
  | trialing
deriving DecidableEq, Repr, Inhabited

/-- `APIError` from middleware/errorHandler.js: message, HTTP status code, and a
machine code defaulting to `'INTERNAL_ERROR'`. -/
structure APIError where
  message : String
  statusCode : Nat
  code : String
deriving DecidableEq, Repr, Inhabited

instance {ε α : Type} [DecidableEq ε] [DecidableEq α] : DecidableEq (Except ε α) :=
  fun a b =>
    match a, b with
    | Except.ok x, Except.ok y => decidable_of_iff (x = y) (by simp)
    | Except.error x, Except.error y => decidable_of_iff (x = y) (by simp)
    | Except.ok _, Except.error _ => isFalse (by simp)
    | Except.error _, Except.ok _ => isFalse (by simp)

def internalErrorCode : String := "INTERNAL_ERROR"
def planLimitCode : String := "PLAN_LIMIT"
def planLimitMessage : String := "Free plan limited to 5 invoices per month. Please upgrade."
def clientNotFoundMessage : String := "Client not found"
def invoiceNotFoundMessage : String := "Invoice not found"
def createFailedMessage : String := "Failed to create invoice"
def itemsFailedMessage : String := "Failed to create invoice items"
def cannotModifyPaidMessage : String := "Cannot modify a paid invoice"
def cannotDeletePaidMessage : String := "Cannot delete a paid invoice"
def alreadyPaidMessage : String := "Invoice is already paid"
def planRequiredMessage : String := "This feature requires pro or business plan."
def manualMethod : String := "manual"
def stripeMethod : String := "stripe"
def invoiceCreatedAction : String := "INVOICE_CREATED"

/-- A line item as supplied in the request body (`items` array of POST/PUT
/api/invoices). -/
structure Item where
  description : String
  quantity : ℚ
  price : ℚ
deriving DecidableEq, Repr, Inhabited

/-- A row of the `invoices` table (the columns the domain logic reads or
writes). -/
structure InvoiceRow where
  id : Nat
  user_id : Nat
  client_id : Nat
  invoice_number : String
  status : Status
  due_date : Nat
  subtotal : ℚ
  tax_rate : ℚ
  tax_amount : ℚ
  discount_amount : ℚ
  total : ℚ
  notes : Option String
  terms : Option String
  paid_at : Option Nat
  paid_amount : Option ℚ
  payment_method : Option String
  reminder_sent_at : Option Nat
  reminder_count : Nat
  created_at : Nat
deriving DecidableEq, Repr, Inhabited

/-- A row of the `invoice_items` table. -/
structure InvoiceItemRow where
  id : Nat
  invoice_id : Nat
  description : String
  quantity : ℚ
  unit_price : ℚ
  amount : ℚ
  sort_order : Nat
deriving DecidableEq, Repr, Inhabited

/-- A row of the `payments` table. -/
structure PaymentRow where
  id : Nat
  invoice_id : Nat
  user_id : Nat
  amount : ℚ
  payment_method : String
  stripe_payment_id : Option String
  status : PayStatus
  notes : Option String
deriving DecidableEq, Repr, Inhabited

/-- A row of the `clients` table (the columns the invoice routes read). -/
structure ClientRow where
  id : Nat
  user_id : Nat
  name : String
  email : String
deriving DecidableEq, Repr, Inhabited

/-- A row of the `users` table (the columns the webhook and invoice routes
read or write). -/
structure UserRow where
  id : Nat
  email : String
  name : String
  plan : Plan
  plan_expires_at : Option Nat
  stripe_customer_id : Option String
  stripe_subscription_id : Option String
deriving DecidableEq, Repr, Inhabited

/-- A row of the `subscriptions` table. -/
structure SubscriptionRow where
  id : Nat
  user_id : Nat
  stripe_subscription_id : Option String
  stripe_customer_id : Option String
  plan : Plan
  status : SubStatus
  cancelled_at : Option Nat
deriving DecidableEq, Repr, Inhabited

/-- A row of the `audit_logs` table (the fields the invoice routes write). -/
structure AuditRow where
  user_id : Option Nat
  action : String
  entity_id : Option Nat
deriving DecidableEq, Repr, Inhabited

/-- The relational store: one list per table touched by the invoice and
webhook routes. -/
structure DB where
  invoices : List InvoiceRow
  invoice_items : List InvoiceItemRow
  payments : List PaymentRow
  clients : List ClientRow
  users : List UserRow
  subscriptions : List SubscriptionRow
  audit_logs : List AuditRow
deriving DecidableEq, Repr, Inhabited

/-- `sanitizeString` of middleware/validate.js trims and passes the value
through the external `xss` filter; the filter itself is an out-of-scope
collaborator, so its content transformation is modelled as the identity on
the trimmed string (no verified claim observes the sanitized content). -/
def sanitizeString (s : String) : String := s.trim

/-- `items.reduce((sum, item) => sum + (item.quantity * item.price), 0)` —
the subtotal computation of POST/PUT /api/invoices. -/
def sumItems (items : List Item) : ℚ :=
  items.foldl (fun sum it => sum + it.quantity * it.price) 0

def invTag : String := "INV-"
def dashStr : String := "-"

/-- `String(n).padStart(4, '0')`. -/
def padStart4 (s : String) : String :=
  if s.length < 4 then String.mk (List.replicate (4 - s.length) '0') ++ s else s

/-- `` `INV-${year}-${String(ord).padStart(4, '0')}` ``. -/
def invoiceNumberFor (year ord : Nat) : String :=
  invTag ++ toString year ++ dashStr ++ padStart4 (toString ord)

/-- The `invoice_items` rows built by `items.map((item, index) => ...)` in
POST /api/invoices (and PUT, for replacement); `uuidv4()` per row is modelled
as `idBase + index`. -/
def mkInvoiceItems (invoiceId idBase : Nat) (items : List Item) : List InvoiceItemRow :=
  items.enum.map (fun p =>
    { id := idBase + p.1
      invoice_id := invoiceId
      description := sanitizeString p.2.description
      quantity := p.2.quantity
      unit_price := p.2.price
      amount := p.2.quantity * p.2.price
      sort_order := p.1 })

/-- Environment inputs of one POST /api/invoices request: the authenticated
user and plan (`req.userId`, `req.user.plan`), the clock readings
(`new Date()`, `getFullYear()`, `new Date(new Date().setDate(1))`), the fresh
`uuidv4()` values, and whether the `invoice_items` insert is failed by the
storage collaborator. -/
structure CreateCtx where
  userId : Nat
  plan : Plan
  now : Nat
  year : Nat
  monthStart : Nat
  invoiceId : Nat
  itemIdBase : Nat
  itemsInsertFails : Bool
deriving DecidableEq, Repr, Inhabited

/-- Request body of POST /api/invoices; `tax_rate = 0, discount_amount = 0`
destructuring defaults are applied by `createInvoice`. -/
structure CreateBody where
  client_id : Nat
  items : List Item
  due_date : Nat
  notes : Option String
  terms : Option String
  tax_rate : Option ℚ
  discount_amount : Option ℚ
deriving DecidableEq, Repr, Inhabited

/-- The count behind the free-plan check: invoices of the user with
`created_at >= firstOfMonth`. -/
def monthInvoiceCount (db : DB) (userId monthStart : Nat) : Nat :=
  (db.invoices.filter (fun i => decide (i.user_id = userId ∧ monthStart ≤ i.created_at))).length

/-- The count behind invoice-number generation: all invoices of the user. -/
def userInvoiceCount (db : DB) (userId : Nat) : Nat :=
  (db.invoices.filter (fun i => decide (i.user_id = userId))).length

/-- The uniqueness constraints the `invoices` insert is subject to:
`PRIMARY KEY (id)` and `UNIQUE(user_id, invoice_number)` from
database/schema.sql.  `true` means the insert would be rejected. -/
def dupCheck (db : DB) (invoiceId userId : Nat) (num : String) : Bool :=
  db.invoices.any (fun i =>
    decide (i.id = invoiceId ∨ (i.user_id = userId ∧ i.invoice_number = num)))

/-- The invoice row inserted by POST /api/invoices, given the pre-insert
per-user invoice count. -/
def freshInvoice (ctx : CreateCtx) (body : CreateBody) (count : Nat) : InvoiceRow :=
  { id := ctx.invoiceId
    user_id := ctx.userId
    client_id := body.client_id
    invoice_number := invoiceNumberFor ctx.year (count + 1)
    status := Status.pending
    due_date := body.due_date
    subtotal := sumItems body.items
    tax_rate := body.tax_rate.getD 0
    tax_amount := sumItems body.items * (body.tax_rate.getD 0 / 100)
    discount_amount := body.discount_amount.getD 0
    total := sumItems body.items + sumItems body.items * (body.tax_rate.getD 0 / 100)
             - body.discount_amount.getD 0
    notes := body.notes.map sanitizeString
    terms := body.terms.map sanitizeString
    paid_at := none
    paid_amount := none
    payment_method := none
    reminder_sent_at := none
    reminder_count := 0
    created_at := ctx.now }

/-- POST /api/invoices.  Returns the HTTP outcome together with the store as
left by the handler (so that roll-backs are observable).  Steps, in the
source's order: free-plan limit check, client-ownership check, invoice-number
generation from the per-user count, totals computation, invoice insert
(subject to the schema's uniqueness constraints), items insert with rollback
of the invoice row on failure, audit log. -/
def createInvoice (ctx : CreateCtx) (db : DB) (body : CreateBody) :
    Except APIError InvoiceRow × DB :=
  if ctx.plan = Plan.free ∧ 5 ≤ monthInvoiceCount db ctx.userId ctx.monthStart then
    (Except.error ⟨planLimitMessage, 403, planLimitCode⟩, db)
  else
    match db.clients.find? (fun c => decide (c.id = body.client_id ∧ c.user_id = ctx.userId)) with
    | none => (Except.error ⟨clientNotFoundMessage, 404, internalErrorCode⟩, db)
    | some _ =>
      let count := userInvoiceCount db ctx.userId
      let invoice := freshInvoice ctx body count
      if dupCheck db ctx.invoiceId ctx.userId invoice.invoice_number then
        (Except.error ⟨createFailedMessage, 500, internalErrorCode⟩, db)
      else
        let db1 : DB := { db with invoices := invoice :: db.invoices }
        if ctx.itemsInsertFails then
          (Except.error ⟨itemsFailedMessage, 500, internalErrorCode⟩,
           { db1 with invoices := db1.invoices.filter (fun i => !(decide (i.id = ctx.invoiceId))) })
        else
          let db2 : DB := { db1 with
            invoice_items := db1.invoice_items ++ mkInvoiceItems ctx.invoiceId ctx.itemIdBase body.items }
          (Except.ok invoice,
           { db2 with
             audit_logs := db2.audit_logs ++ [⟨some ctx.userId, invoiceCreatedAction, some ctx.invoiceId⟩] })

/-- Request body of PUT /api/invoices/:id; absent (JS `undefined`) fields are
`none` and are dropped from the storage update payload. -/
structure UpdateBody where
  items : Option (List Item)
  due_date : Option Nat
  notes : Option String
  terms : Option String
  status : Option Status
  tax_rate : Option ℚ
  discount_amount : Option ℚ
deriving DecidableEq, Repr, Inhabited

/-- JavaScript `x || y` on an optionally-supplied number: an absent value and
the number 0 are both falsy and fall back to the existing value.  Used by PUT
/api/invoices/:id as `(tax_rate || existing.tax_rate)` and
`(discount_amount || existing.discount_amount)`. -/
def jsOr (o : Option ℚ) (d : ℚ) : ℚ :=
  match o with
  | some x => if x = 0 then d else x
  | none => d

/-- The `updateData` application of PUT /api/invoices/:id: the supplied
scalar fields, plus recomputed `subtotal`/`tax_amount`/`total` when items
were replaced; fields that are JS `undefined` are omitted from the update. -/
def applyUpdateData (body : UpdateBody) (totals : Option (ℚ × ℚ × ℚ)) (i : InvoiceRow) :
    InvoiceRow :=
  let base : InvoiceRow := { i with
    due_date := body.due_date.getD i.due_date
    notes := (body.notes.map some).getD i.notes
    terms := (body.terms.map some).getD i.terms
    status := body.status.getD i.status
    tax_rate := body.tax_rate.getD i.tax_rate
    discount_amount := body.discount_amount.getD i.discount_amount }
  match totals with
  | none => base
  | some (s, t, tot) => { base with subtotal := s, tax_amount := t, total := tot }

/-- PUT /api/invoices/:id.  Fetches the invoice scoped to the user, rejects
edits of a paid invoice unless the body keeps `status === 'paid'`, recomputes
totals and replaces the line items when `items` is supplied, then applies the
update to the row matched by id. -/
def updateInvoice (db : DB) (userId id itemIdBase : Nat) (body : UpdateBody) :
    Except APIError DB :=
  match db.invoices.find? (fun i => decide (i.id = id ∧ i.user_id = userId)) with
  | none => Except.error ⟨invoiceNotFoundMessage, 404, internalErrorCode⟩
  | some existing =>
    if existing.status = Status.paid ∧ body.status ≠ some Status.paid then
      Except.error ⟨cannotModifyPaidMessage, 400, internalErrorCode⟩
    else
      match body.items with
      | some its =>
        let subtotal := sumItems its
        let taxAmount := subtotal * (jsOr body.tax_rate existing.tax_rate / 100)
        let total := subtotal + taxAmount - jsOr body.discount_amount existing.discount_amount
        let db1 : DB := { db with
          invoice_items :=
            db.invoice_items.filter (fun it => !(decide (it.invoice_id = id)))
            ++ mkInvoiceItems id itemIdBase its }
        Except.ok { db1 with
          invoices := db1.invoices.map (fun i =>
            if i.id = id then applyUpdateData body (some (subtotal, taxAmount, total)) i else i) }
      | none =>
        Except.ok { db with
          invoices := db.invoices.map (fun i =>
            if i.id = id then applyUpdateData body none i else i) }

/-- Request body of POST /api/invoices/:id/mark-paid:
`const { payment_method = 'manual', notes } = req.body`. -/
structure MarkPaidBody where
  payment_method : Option String
  notes : Option String
deriving DecidableEq, Repr, Inhabited

/-- POST /api/invoices/:id/mark-paid.  Fetches the invoice scoped to the
user, then unconditionally sets `status = 'paid'`, `paid_at`,
`paid_amount = invoice.total`, `payment_method`, and inserts a completed
`payments` row for `invoice.total` — there is no already-paid or terminal
state guard in the handler. -/
def markPaid (db : DB) (userId id paymentId now : Nat) (body : MarkPaidBody) :
    Except APIError DB :=
  match db.invoices.find? (fun i => decide (i.id = id ∧ i.user_id = userId)) with
  | none => Except.error ⟨invoiceNotFoundMessage, 404, internalErrorCode⟩
  | some invoice =>
    let method := body.payment_method.getD manualMethod
    let db1 : DB := { db with
      invoices := db.invoices.map (fun i =>
        if i.id = id then
          { i with
            status := Status.paid
            paid_at := some now
            paid_amount := some invoice.total
            payment_method := some method }
        else i) }
    Except.ok { db1 with
      payments := db1.payments ++
        [{ id := paymentId
           invoice_id := id
           user_id := userId
           amount := invoice.total
           payment_method := method
           stripe_payment_id := none
           status := PayStatus.completed
           notes := body.notes }] }

/-- POST /api/invoices/:id/remind.  Gated by `requirePlan('pro','business')`
(middleware/auth.js), then fails only when the invoice is `'paid'`; otherwise
stamps `reminder_sent_at` and sets `reminder_count` to the fetched count plus
one. -/
def remind (db : DB) (plan : Plan) (userId id now : Nat) : Except APIError DB :=
  if ¬(plan = Plan.pro ∨ plan = Plan.business) then
    Except.error ⟨planRequiredMessage, 403, internalErrorCode⟩
  else
    match db.invoices.find? (fun i => decide (i.id = id ∧ i.user_id = userId)) with
    | none => Except.error ⟨invoiceNotFoundMessage, 404, internalErrorCode⟩
    | some invoice =>
      if invoice.status = Status.paid then
        Except.error ⟨alreadyPaidMessage, 400, internalErrorCode⟩
      else
        Except.ok { db with
          invoices := db.invoices.map (fun i =>
            if i.id = id then
              { i with
                reminder_sent_at := some now
                reminder_count := invoice.reminder_count + 1 }
            else i) }

/-- DELETE /api/invoices/:id.  Fetches the invoice scoped to the user,
rejects deletion of a paid invoice, otherwise removes the row; the schema's
`ON DELETE CASCADE` removes its `invoice_items` and `payments` rows. -/
def deleteInvoice (db : DB) (userId id : Nat) : Except APIError DB :=
  match db.invoices.find? (fun i => decide (i.id = id ∧ i.user_id = userId)) with
  | none => Except.error ⟨invoiceNotFoundMessage, 404, internalErrorCode⟩
  | some invoice =>
    if invoice.status = Status.paid then
      Except.error ⟨cannotDeletePaidMessage, 400, internalErrorCode⟩
    else
      Except.ok { db with
        invoices := db.invoices.filter (fun i => !(decide (i.id = id)))
        invoice_items := db.invoice_items.filter (fun it => !(decide (it.invoice_id = id)))
        payments := db.payments.filter (fun p => !(decide (p.invoice_id = id))) }

/-- The fields of a `customer.subscription.deleted` event object that
`handleSubscriptionDeleted` reads. -/
structure SubscriptionEvent where
  id : String
  customer : String
deriving DecidableEq, Repr, Inhabited

/-- `handleSubscriptionDeleted` of routes/webhooks.js: mark the subscription
rows matching the external subscription id `cancelled` (stamping
`cancelled_at`), then downgrade the users matching the processor customer id
to the free plan and clear their `stripe_subscription_id`. -/
def handleSubscriptionDeleted (db : DB) (evt : SubscriptionEvent) (now : Nat) : DB :=
  let db1 : DB := { db with
    subscriptions := db.subscriptions.map (fun s =>
      if s.stripe_subscription_id = some evt.id then
        { s with status := SubStatus.cancelled, cancelled_at := some now }
      else s) }
  { db1 with
    users := db1.users.map (fun u =>
      if u.stripe_customer_id = some evt.customer then
        { u with plan := Plan.free, stripe_subscription_id := none }
      else u) }

/-- The fields of a `payment_intent.succeeded` event object that
`handlePaymentIntentSucceeded` reads; `amount` is in minor units (cents) and
the metadata carries the tenant invoice id and user id stamped at payment
intent creation (routes/payments.js). -/
structure PaymentIntent where
  id : String
  amount : ℚ
  invoice_id : Option Nat
  user_id : Nat
deriving DecidableEq, Repr, Inhabited

/-- `handlePaymentIntentSucceeded` of routes/webhooks.js: when the metadata
carries an invoice id, unconditionally set the invoice `paid` with
`paid_amount = amount / 100` and `payment_method = 'stripe'`, and insert a
completed `payments` row carrying the processor payment id — no check
whether the invoice is already paid or whether the payment was already
recorded. -/
def handlePaymentIntentSucceeded (db : DB) (intent : PaymentIntent) (paymentId now : Nat) :
    DB :=
  match intent.invoice_id with
  | none => db
  | some invId =>
    let db1 : DB := { db with
      invoices := db.invoices.map (fun i =>
        if i.id = invId then
          { i with
            status := Status.paid
            paid_at := some now
            paid_amount := some (intent.amount / 100)
            payment_method := some stripeMethod }
        else i) }
    { db1 with
      payments := db1.payments ++
        [{ id := paymentId
           invoice_id := invId
           user_id := intent.user_id
           amount := intent.amount / 100
           payment_method := stripeMethod
           stripe_payment_id := some intent.id
           status := PayStatus.completed
           notes := none }] }

/-- A create-or-delete request, for reasoning about sequences of invoice
numbering operations (claim about `INV-` numbers). -/
inductive Op
  | create (ctx : CreateCtx) (body : CreateBody)
  | del (userId id : Nat)
deriving Repr, Inhabited

/-- The store left behind by one request: failed requests leave the store as
the handler left it (`createInvoice` reports its post-rollback store; a
failed delete writes nothing). -/
def applyOp (db : DB) : Op → DB
  | Op.create ctx body => (createInvoice ctx db body).2
  | Op.del uid id =>
    match deleteInvoice db uid id with
    | Except.ok db1 => db1
    | Except.error _ => db

/-- Left-to-right application of a request sequence. -/
def applyOps (db : DB) : List Op → DB
  | [] => db
  | op :: ops => applyOps (applyOp db op) ops

/-- First invoice row with the given id (the `.eq('id', ...)` lookup without
the user filter), for stating observations about a store. -/
def getInvoice (db : DB) (id : Nat) : Option InvoiceRow :=
  db.invoices.find? (fun i => decide (i.id = id))

/-- The completed payment records of one invoice. -/
def completedPaymentsFor (db : DB) (invId : Nat) : List PaymentRow :=
  db.payments.filter (fun p => decide (p.invoice_id = invId ∧ p.status = PayStatus.completed))

theorem sumItems_eq_sum (items : List Item) :
    sumItems items = (items.map (fun it => it.quantity * it.price)).sum := by
  suffices h : ∀ a : ℚ,
      items.foldl (fun sum it => sum + it.quantity * it.price) a
        = a + (items.map (fun it => it.quantity * it.price)).sum by
    simpa [sumItems] using h 0
  induction items with
  | nil => simp
  | cons x xs ih =>
    intro a
    simp only [List.foldl_cons, List.map_cons, List.sum_cons, ih]
    ring

/-- Success-branch characterization of POST /api/invoices: an `ok` outcome is
the freshly built invoice row. -/
theorem createInvoice_ok (ctx : CreateCtx) (db : DB) (body : CreateBody)
    (inv : InvoiceRow) (dbAfter : DB)
    (h : createInvoice ctx db body = (Except.ok inv, dbAfter)) :
    inv = freshInvoice ctx body (userInvoiceCount db ctx.userId) := by
  unfold createInvoice at h
  dsimp only at h
  split at h
  · simp at h
  · split at h
    · simp at h
    · split at h
      · simp at h
      · split at h
        · simp at h
        · simp only [Prod.mk.injEq, Except.ok.injEq] at h
          exact h.1.symm

def c1Client : ClientRow := { id := 1, user_id := 1, name := "C", email := "a@x.com" }

def c1Db : DB :=
  { invoices := [], invoice_items := [], payments := [], clients := [c1Client]
    users := [], subscriptions := [], audit_logs := [] }

def c1Ctx : CreateCtx :=
  { userId := 1, plan := Plan.pro, now := 100, year := 2025, monthStart := 50
    invoiceId := 10, itemIdBase := 100, itemsInsertFails := false }

def c1Body : CreateBody :=
  { client_id := 1, items := [⟨"A", 2, 50⟩, ⟨"B", 1, 25⟩], due_date := 200
    notes := none, terms := none, tax_rate := some 10, discount_amount := some 5 }

/-- The invoice row produced by the C1 scenario. -/
def c1Inv : InvoiceRow :=
  { id := 10, user_id := 1, client_id := 1, invoice_number := "INV-2025-0001"
    status := Status.pending, due_date := 200, subtotal := 125, tax_rate := 10
    tax_amount := 12.5, discount_amount := 5, total := 132.5, notes := none
    terms := none, paid_at := none, paid_amount := none, payment_method := none
    reminder_sent_at := none, reminder_count := 0, created_at := 100 }

theorem c1_run : (createInvoice c1Ctx c1Db c1Body).1 = Except.ok c1Inv := by
  simp only [createInvoice, c1Ctx, c1Db, c1Body, c1Client, c1Inv, monthInvoiceCount,
    userInvoiceCount, dupCheck, freshInvoice, sumItems]
  norm_num [InvoiceRow.mk.injEq]
  rfl

/-- C1: every invoice created by POST /api/invoices with a non-empty item
list stores `subtotal = Σ(quantity × price)`,
`tax_amount = subtotal × tax_rate / 100`, and
`total = subtotal + tax_amount − discount_amount`; in particular the spec's
scenario (items `{qty 2, price 50}` and `{qty 1, price 25}`, tax rate 10,
discount 5) yields subtotal 125, tax_amount 12.5, total 132.5. -/
theorem C1_create_totals :
    (∀ (ctx : CreateCtx) (db : DB) (body : CreateBody) (inv : InvoiceRow) (dbAfter : DB),
       body.items ≠ [] →
       createInvoice ctx db body = (Except.ok inv, dbAfter) →
       inv.subtotal = (body.items.map (fun it => it.quantity * it.price)).sum ∧
       inv.tax_amount = inv.subtotal * (body.tax_rate.getD 0 / 100) ∧
       inv.total = inv.subtotal + inv.tax_amount - body.discount_amount.getD 0) ∧
    (createInvoice c1Ctx c1Db c1Body).1 = Except.ok c1Inv ∧
    c1Inv.subtotal = 125 ∧ c1Inv.tax_amount = 12.5 ∧ c1Inv.total = 132.5 := by
  refine ⟨fun ctx db body inv dbAfter _ h => ?_, c1_run, by norm_num [c1Inv]⟩
  have hinv := createInvoice_ok ctx db body inv dbAfter h
  subst hinv
  refine ⟨by simp [freshInvoice, sumItems_eq_sum], by simp [freshInvoice], ?_⟩
  simp [freshInvoice]

/-- Closed instantiation of the universally quantified part of
`C1_create_totals` at the spec scenario. -/
theorem C1_create_totals_witness :
    c1Inv.subtotal = (c1Body.items.map (fun it => it.quantity * it.price)).sum ∧
    c1Inv.tax_amount = c1Inv.subtotal * (c1Body.tax_rate.getD 0 / 100) ∧
    c1Inv.total = c1Inv.subtotal + c1Inv.tax_amount - c1Body.discount_amount.getD 0 := by
  refine C1_create_totals.1 c1Ctx c1Db c1Body c1Inv (createInvoice c1Ctx c1Db c1Body).2
    (by decide) ?_
  exact Prod.ext c1_run rfl

theorem dupCheck_false {db : DB} {invoiceId userId : Nat} {num : String}
    (h : ¬dupCheck db invoiceId userId num = true) :
    ∀ i ∈ db.invoices, i.id ≠ invoiceId ∧ ¬(i.user_id = userId ∧ i.invoice_number = num) := by
  intro i hi
  simp only [dupCheck, List.any_eq_true, not_exists, not_and] at h
  have := h i hi
  simp only [decide_eq_true_eq] at this
  constructor
  · intro hc; exact this (Or.inl hc)
  · intro hc; exact this (Or.inr hc)

/-- C9: POST /api/invoices is atomic — when the `invoice_items` insert fails
after the invoice row was inserted, the handler deletes the invoice row
again and reports an error, so the store is left exactly as before the
request and no item-less invoice remains (on the earlier failure paths
nothing was written in the first place). -/
theorem C9_create_rollback :
    ∀ (ctx : CreateCtx) (db : DB) (body : CreateBody),
      ctx.itemsInsertFails = true →
      (createInvoice ctx db body).2 = db ∧
      ∀ inv : InvoiceRow, (createInvoice ctx db body).1 ≠ Except.ok inv := by
  intro ctx db body hfail
  unfold createInvoice
  dsimp only
  split
  · exact ⟨rfl, by simp⟩
  · split
    · exact ⟨rfl, by simp⟩
    · split
      · exact ⟨rfl, by simp⟩
      · rename_i hdup
        refine ⟨?_, by simp⟩
        have hkeep := dupCheck_false hdup
        obtain ⟨invs, items, pays, cls, us, subsc, logs⟩ := db
        simp only [DB.mk.injEq, and_true, true_and]
        rw [List.filter_cons_of_neg (by simp [freshInvoice])]
        exact List.filter_eq_self.mpr (fun i hi => by simpa using (hkeep i hi).1)

def c9Client : ClientRow := { id := 7, user_id := 4, name := "R", email := "r@x.com" }

def c9Db : DB :=
  { invoices := [], invoice_items := [], payments := [], clients := [c9Client]
    users := [], subscriptions := [], audit_logs := [] }

def c9Ctx : CreateCtx :=
  { userId := 4, plan := Plan.business, now := 30, year := 2024, monthStart := 20
    invoiceId := 40, itemIdBase := 400, itemsInsertFails := true }

def c9Body : CreateBody :=
  { client_id := 7, items := [⟨"W", 3, 4⟩], due_date := 90
    notes := none, terms := none, tax_rate := none, discount_amount := none }

/-- Closed instantiation of `C9_create_rollback`: a create whose items
insert fails leaves the store untouched and yields no invoice. -/
theorem C9_create_rollback_witness :
    (createInvoice c9Ctx c9Db c9Body).2 = c9Db ∧
    (createInvoice c9Ctx c9Db c9Body).1 ≠ Except.ok default :=
  ⟨(C9_create_rollback c9Ctx c9Db c9Body rfl).1,
   (C9_create_rollback c9Ctx c9Db c9Body rfl).2 default⟩

def c4Client : ClientRow := { id := 2, user_id := 3, name := "D", email := "d@x.com" }

def c4Db : DB :=
  { invoices := [], invoice_items := [], payments := [], clients := [c4Client]
    users := [], subscriptions := [], audit_logs := [] }

def c4Ctx : CreateCtx :=
  { userId := 3, plan := Plan.business, now := 10, year := 2025, monthStart := 5
    invoiceId := 20, itemIdBase := 200, itemsInsertFails := false }

/-- One item worth 1.00, no tax, discount 10.00: the handler performs no
validation relating the discount to the item total. -/
def c4Body : CreateBody :=
  { client_id := 2, items := [⟨"X", 1, 1⟩], due_date := 50
    notes := none, terms := none, tax_rate := none, discount_amount := some 10 }

def c4Inv : InvoiceRow :=
  { id := 20, user_id := 3, client_id := 2, invoice_number := "INV-2025-0001"
    status := Status.pending, due_date := 50, subtotal := 1, tax_rate := 0
    tax_amount := 0, discount_amount := 10, total := -9, notes := none
    terms := none, paid_at := none, paid_amount := none, payment_method := none
    reminder_sent_at := none, reminder_count := 0, created_at := 10 }

theorem c4_run : (createInvoice c4Ctx c4Db c4Body).1 = Except.ok c4Inv := by
  simp only [createInvoice, c4Ctx, c4Db, c4Body, c4Client, c4Inv, monthInvoiceCount,
    userInvoiceCount, dupCheck, freshInvoice, sumItems]
  norm_num [InvoiceRow.mk.injEq]
  rfl

/-- C4 counterexample: POST /api/invoices with items totalling 1.00 and
discount 10.00 succeeds and stores total = −9 < 0 with
discount_amount > subtotal + tax_amount, refuting both halves of the
claimed invariant. -/
theorem C4_counterexample :
    (createInvoice c4Ctx c4Db c4Body).1 = Except.ok c4Inv ∧
    c4Inv.total < 0 ∧
    c4Inv.subtotal + c4Inv.tax_amount < c4Inv.discount_amount :=
  ⟨c4_run, by norm_num [c4Inv], by norm_num [c4Inv]⟩

/-- C4 amended: create and update store
`total = subtotal + tax_amount − effective discount` with no validation or
clamping, so `total ≥ 0` (equivalently `discount ≤ subtotal + tax_amount`)
holds exactly when the effective discount does not exceed
subtotal + tax_amount; on the update path the effective discount is the JS
`discount_amount || existing.discount_amount` fallback. -/
theorem C4_total_invariant :
    (∀ (ctx : CreateCtx) (db : DB) (body : CreateBody) (inv : InvoiceRow) (dbAfter : DB),
       createInvoice ctx db body = (Except.ok inv, dbAfter) →
       inv.total = inv.subtotal + inv.tax_amount - inv.discount_amount ∧
       (0 ≤ inv.total ↔ inv.discount_amount ≤ inv.subtotal + inv.tax_amount)) ∧
    (∀ (db : DB) (userId id itemIdBase : Nat) (body : UpdateBody)
       (its : List Item) (existing : InvoiceRow) (db2 : DB),
       body.items = some its →
       db.invoices.find? (fun i => decide (i.id = id ∧ i.user_id = userId)) = some existing →
       updateInvoice db userId id itemIdBase body = Except.ok db2 →
       ∀ j ∈ db2.invoices, j.id = id →
         (0 ≤ j.total ↔
          jsOr body.discount_amount existing.discount_amount ≤ j.subtotal + j.tax_amount)) := by
  constructor
  · intro ctx db body inv dbAfter h
    have hinv := createInvoice_ok ctx db body inv dbAfter h
    subst hinv
    exact ⟨by simp [freshInvoice], by simp [freshInvoice, sub_nonneg]⟩
  · intro db userId id itemIdBase body its existing db2 hits hfind hok j hj hid
    unfold updateInvoice at hok
    rw [hfind] at hok
    dsimp only at hok
    rw [hits] at hok
    split at hok
    · simp at hok
    · dsimp only at hok
      simp only [Except.ok.injEq] at hok
      subst hok
      simp only [List.mem_map] at hj
      obtain ⟨i, hi, hji⟩ := hj
      by_cases hcase : i.id = id
      · rw [if_pos hcase] at hji
        subst hji
        simp [applyUpdateData, sub_nonneg]
      · rw [if_neg hcase] at hji
        subst hji
        exact absurd hid hcase

/-- Closed instantiation of the create part of `C4_total_invariant` at the
C4 scenario. -/
theorem C4_total_invariant_witness :
    c4Inv.total = c4Inv.subtotal + c4Inv.tax_amount - c4Inv.discount_amount ∧
    (0 ≤ c4Inv.total ↔ c4Inv.discount_amount ≤ c4Inv.subtotal + c4Inv.tax_amount) :=
  C4_total_invariant.1 c4Ctx c4Db c4Body c4Inv (createInvoice c4Ctx c4Db c4Body).2
    (Prod.ext c4_run rfl)

/-- C6: the free-plan monthly limit of POST /api/invoices.  A free-plan
request is rejected with code `PLAN_LIMIT` exactly when the user already has
five or more invoices created since the first of the month (so the 6th
creation fails and the 5th succeeds, absent other failures), and a
non-free-plan request is never rejected with `PLAN_LIMIT`. -/
theorem C6_plan_limit :
    (∀ (ctx : CreateCtx) (db : DB) (body : CreateBody),
       ctx.plan = Plan.free →
       5 ≤ monthInvoiceCount db ctx.userId ctx.monthStart →
       createInvoice ctx db body = (Except.error ⟨planLimitMessage, 403, planLimitCode⟩, db)) ∧
    (∀ (ctx : CreateCtx) (db : DB) (body : CreateBody),
       monthInvoiceCount db ctx.userId ctx.monthStart ≤ 4 →
       (db.clients.find? (fun c => decide (c.id = body.client_id ∧ c.user_id = ctx.userId))).isSome
         = true →
       dupCheck db ctx.invoiceId ctx.userId
         (freshInvoice ctx body (userInvoiceCount db ctx.userId)).invoice_number = false →
       ctx.itemsInsertFails = false →
       (createInvoice ctx db body).1
         = Except.ok (freshInvoice ctx body (userInvoiceCount db ctx.userId))) ∧
    (∀ (ctx : CreateCtx) (db : DB) (body : CreateBody) (e : APIError),
       ctx.plan ≠ Plan.free →
       (createInvoice ctx db body).1 = Except.error e →
       e.code ≠ planLimitCode) := by
  refine ⟨?_, ?_, ?_⟩
  · intro ctx db body hplan hcount
    unfold createInvoice
    dsimp only
    rw [if_pos ⟨hplan, hcount⟩]
  · intro ctx db body hcount hclient hdup hfail
    obtain ⟨c, hc⟩ := Option.isSome_iff_exists.mp hclient
    unfold createInvoice
    dsimp only
    rw [if_neg (fun hand => by omega), hc]
    dsimp only
    rw [if_neg (by simp [hdup]), if_neg (by simp [hfail])]
  · intro ctx db body e hplan h
    unfold createInvoice at h
    dsimp only at h
    split at h
    · rename_i hcond
      exact absurd hcond.1 hplan
    · split at h
      · dsimp only at h
        simp only [Except.error.injEq] at h
        subst h
        decide
      · split at h
        · dsimp only at h
          simp only [Except.error.injEq] at h
          subst h
          decide
        · split at h
          · dsimp only at h
            simp only [Except.error.injEq] at h
            subst h
            decide
          · simp at h

def c6Client : ClientRow := { id := 5, user_id := 9, name := "F", email := "f@x.com" }

/-- The j-th pre-existing invoice of the C6 fixture, created inside the
current month. -/
def c6Row (j : Nat) : InvoiceRow :=
  { id := j, user_id := 9, client_id := 5, invoice_number := invoiceNumberFor 2025 j
    status := Status.pending, due_date := 90, subtotal := 0, tax_rate := 0
    tax_amount := 0, discount_amount := 0, total := 0, notes := none
    terms := none, paid_at := none, paid_amount := none, payment_method := none
    reminder_sent_at := none, reminder_count := 0, created_at := 60 }

def c6Db5 : DB :=
  { invoices := [c6Row 1, c6Row 2, c6Row 3, c6Row 4, c6Row 5]
    invoice_items := [], payments := [], clients := [c6Client]
    users := [], subscriptions := [], audit_logs := [] }

def c6Db4 : DB :=
  { invoices := [c6Row 1, c6Row 2, c6Row 3, c6Row 4]
    invoice_items := [], payments := [], clients := [c6Client]
    users := [], subscriptions := [], audit_logs := [] }

def c6DbNoClient : DB :=
  { invoices := [], invoice_items := [], payments := [], clients := []
    users := [], subscriptions := [], audit_logs := [] }

def c6CtxFree : CreateCtx :=
  { userId := 9, plan := Plan.free, now := 70, year := 2025, monthStart := 50
    invoiceId := 50, itemIdBase := 500, itemsInsertFails := false }

def c6CtxPro : CreateCtx :=
  { userId := 9, plan := Plan.pro, now := 70, year := 2025, monthStart := 50
    invoiceId := 50, itemIdBase := 500, itemsInsertFails := false }

def c6Body : CreateBody :=
  { client_id := 5, items := [⟨"S", 1, 0⟩], due_date := 90
    notes := none, terms := none, tax_rate := none, discount_amount := none }

/-- Closed instantiation of `C6_plan_limit`: with five same-month invoices
the free-plan creation fails with `PLAN_LIMIT`, with four it succeeds, and a
pro-plan failure (here: unknown client) does not carry `PLAN_LIMIT`. -/
theorem C6_plan_limit_witness :
    createInvoice c6CtxFree c6Db5 c6Body
      = (Except.error ⟨planLimitMessage, 403, planLimitCode⟩, c6Db5) ∧
    (createInvoice c6CtxFree c6Db4 c6Body).1
      = Except.ok (freshInvoice c6CtxFree c6Body (userInvoiceCount c6Db4 9)) ∧
    (⟨clientNotFoundMessage, 404, internalErrorCode⟩ : APIError).code ≠ planLimitCode :=
  ⟨C6_plan_limit.1 c6CtxFree c6Db5 c6Body rfl (by decide),
   C6_plan_limit.2.1 c6CtxFree c6Db4 c6Body (by decide) (by decide) (by decide) rfl,
   C6_plan_limit.2.2 c6CtxPro c6DbNoClient c6Body ⟨clientNotFoundMessage, 404, internalErrorCode⟩
     (by decide) (by decide)⟩

def c8Inv : InvoiceRow :=
  { id := 1, user_id := 2, client_id := 3, invoice_number := "INV-2025-0001"
    status := Status.draft, due_date := 90, subtotal := 0, tax_rate := 0
    tax_amount := 0, discount_amount := 0, total := 0, notes := none
    terms := none, paid_at := none, paid_amount := none, payment_method := none
    reminder_sent_at := none, reminder_count := 0, created_at := 10 }

def c8Db : DB :=
  { invoices := [c8Inv], invoice_items := [], payments := [], clients := []
    users := [], subscriptions := [], audit_logs := [] }

/-- C8 counterexample: POST /api/invoices/:id/remind on a `draft` invoice
(pro plan) does not fail with AlreadyPaid — it succeeds, increments
`reminder_count` and stamps `reminder_sent_at`; the handler only rejects
status `paid`. -/
theorem C8_counterexample :
    (getInvoice c8Db 1).map (fun i => i.status) = some Status.draft ∧
    (remind c8Db Plan.pro 2 1 500).toOption.isSome = true ∧
    ((remind c8Db Plan.pro 2 1 500).toOption.bind
       (fun db2 => (getInvoice db2 1).map (fun i => (i.reminder_count, i.reminder_sent_at))))
      = some (1, some 500) := by decide

/-- C8 amended: `remind` (plan-gated to pro/business) fails with
`'Invoice is already paid'` exactly when the invoice status is `paid`
(writing nothing — the handler throws before any update), and for every
other status (`draft`, `pending`, `overdue`, `cancelled`) it succeeds,
setting `reminder_count` to the fetched count plus one and stamping
`reminder_sent_at`. -/
theorem C8_remind :
    ∀ (db : DB) (plan : Plan) (userId id now : Nat) (inv : InvoiceRow),
      (plan = Plan.pro ∨ plan = Plan.business) →
      db.invoices.find? (fun i => decide (i.id = id ∧ i.user_id = userId)) = some inv →
      ((inv.status = Status.paid →
          remind db plan userId id now = Except.error ⟨alreadyPaidMessage, 400, internalErrorCode⟩) ∧
       (inv.status ≠ Status.paid → (remind db plan userId id now).toOption.isSome = true) ∧
       (inv.status ≠ Status.paid →
          ∀ db2, remind db plan userId id now = Except.ok db2 →
            ∀ j ∈ db2.invoices, j.id = id →
              j.reminder_count = inv.reminder_count + 1 ∧ j.reminder_sent_at = some now)) := by
  intro db plan userId id now inv hplan hfind
  unfold remind
  rw [if_neg (fun hn => hn hplan), hfind]
  dsimp only
  refine ⟨fun hpaid => by rw [if_pos hpaid], fun hnp => by rw [if_neg hnp]; rfl, ?_⟩
  intro hnp db2 hok j hj hid
  rw [if_neg hnp] at hok
  simp only [Except.ok.injEq] at hok
  subst hok
  simp only [List.mem_map] at hj
  obtain ⟨i, hi, hji⟩ := hj
  by_cases hcase : i.id = id
  · rw [if_pos hcase] at hji
    subst hji
    exact ⟨rfl, rfl⟩
  · rw [if_neg hcase] at hji
    subst hji
    exact absurd hid hcase

/-- Closed instantiation of `C8_remind` at the draft fixture: the non-paid
branch applies and the call succeeds. -/
theorem C8_remind_witness :
    (remind c8Db Plan.pro 2 1 500).toOption.isSome = true :=
  (C8_remind c8Db Plan.pro 2 1 500 c8Inv (Or.inl rfl) (by decide)).2.1 (by decide)

def c2Inv : InvoiceRow :=
  { id := 1, user_id := 2, client_id := 3, invoice_number := "INV-2025-0001"
    status := Status.pending, due_date := 90, subtotal := 125, tax_rate := 10
    tax_amount := 12.5, discount_amount := 5, total := 132.5, notes := none
    terms := none, paid_at := none, paid_amount := none, payment_method := none
    reminder_sent_at := none, reminder_count := 0, created_at := 10 }

def c2Db0 : DB :=
  { invoices := [c2Inv], invoice_items := [], payments := [], clients := []
    users := [], subscriptions := [], audit_logs := [] }

def c2MarkBody : MarkPaidBody := { payment_method := none, notes := none }

/-- The store after marking the fixture invoice paid manually. -/
def c2Db1 : DB := (markPaid c2Db0 2 1 70 900 c2MarkBody).toOption.getD c2Db0

/-- The store after a second identical mark-paid call. -/
def c2Db2 : DB := (markPaid c2Db1 2 1 71 901 c2MarkBody).toOption.getD c2Db1

/-- A payment-succeeded event for the fixture invoice, amount 100.00 (in
cents), same external reference on redelivery. -/
def c2Intent : PaymentIntent :=
  { id := "pi_1", amount := 10000, invoice_id := some 1, user_id := 2 }

/-- The store after reconciling the event against the already-paid invoice. -/
def c2Db3 : DB := handlePaymentIntentSucceeded c2Db1 c2Intent 72 902

/-- C2 counterexample: marking the same invoice paid twice leaves two
completed payment records, and reconciling a payment-succeeded event against
an invoice already paid manually appends a second completed Payment Record
and overwrites the original paid_amount (132.5) with the event amount
(100). -/
theorem C2_counterexample :
    (completedPaymentsFor c2Db2 1).length = 2 ∧
    (getInvoice c2Db1 1).map (fun i => i.paid_amount) = some (some 132.5) ∧
    (completedPaymentsFor c2Db3 1).length = 2 ∧
    (getInvoice c2Db3 1).map (fun i => i.paid_amount) = some (some 100) ∧
    (100 : ℚ) ≠ 132.5 := by
  refine ⟨rfl, rfl, rfl, ?_, by norm_num⟩
  show some (some ((10000 : ℚ) / 100)) = some (some 100)
  norm_num

/-- C2 amended: neither POST /api/invoices/:id/mark-paid nor the
payment-succeeded reconciliation is idempotent.  Every successful mark-paid
sets the row `paid` and appends one more completed payment record, and every
reconciliation of an event tagged with an invoice id appends one more
payment record and overwrites paid_amount with the event amount — there is
no already-paid guard and no deduplication by external payment reference. -/
theorem C2_markPaid_not_idempotent :
    (∀ (db : DB) (userId id paymentId now : Nat) (body : MarkPaidBody) (db2 : DB),
       markPaid db userId id paymentId now body = Except.ok db2 →
       (∀ j ∈ db2.invoices, j.id = id → j.status = Status.paid) ∧
       db2.payments.map (fun p => p.status)
         = db.payments.map (fun p => p.status) ++ [PayStatus.completed]) ∧
    (∀ (db : DB) (intent : PaymentIntent) (paymentId now invId : Nat),
       intent.invoice_id = some invId →
       (handlePaymentIntentSucceeded db intent paymentId now).payments.length
         = db.payments.length + 1 ∧
       ∀ j ∈ (handlePaymentIntentSucceeded db intent paymentId now).invoices, j.id = invId →
         j.status = Status.paid ∧ j.paid_amount = some (intent.amount / 100)) := by
  constructor
  · intro db userId id paymentId now body db2 hok
    unfold markPaid at hok
    split at hok
    · simp at hok
    · dsimp only at hok
      simp only [Except.ok.injEq] at hok
      subst hok
      refine ⟨?_, by simp⟩
      intro j hj hid
      simp only [List.mem_map] at hj
      obtain ⟨i, hi, hji⟩ := hj
      by_cases hcase : i.id = id
      · rw [if_pos hcase] at hji
        subst hji
        rfl
      · rw [if_neg hcase] at hji
        subst hji
        exact absurd hid hcase
  · intro db intent paymentId now invId hintent
    unfold handlePaymentIntentSucceeded
    rw [hintent]
    dsimp only
    refine ⟨by simp, ?_⟩
    intro j hj hid
    simp only [List.mem_map] at hj
    obtain ⟨i, hi, hji⟩ := hj
    by_cases hcase : i.id = invId
    · rw [if_pos hcase] at hji
      subst hji
      exact ⟨rfl, rfl⟩
    · rw [if_neg hcase] at hji
      subst hji
      exact absurd hid hcase

/-- Closed instantiation of `C2_markPaid_not_idempotent`: the first manual
mark-paid appends a completed record, and reconciling the event appends yet
another payment row. -/
theorem C2_markPaid_not_idempotent_witness :
    c2Db1.payments.map (fun p => p.status)
      = c2Db0.payments.map (fun p => p.status) ++ [PayStatus.completed] ∧
    c2Db3.payments.length = c2Db1.payments.length + 1 :=
  ⟨(C2_markPaid_not_idempotent.1 c2Db0 2 1 70 900 c2MarkBody c2Db1 rfl).2,
   (C2_markPaid_not_idempotent.2 c2Db1 c2Intent 72 902 1 rfl).1⟩

def c3CancInv : InvoiceRow :=
  { id := 1, user_id := 2, client_id := 3, invoice_number := "INV-2025-0001"
    status := Status.cancelled, due_date := 90, subtotal := 0, tax_rate := 0
    tax_amount := 0, discount_amount := 0, total := 0, notes := none
    terms := none, paid_at := none, paid_amount := none, payment_method := none
    reminder_sent_at := none, reminder_count := 0, created_at := 10 }

def c3Db : DB :=
  { invoices := [c3CancInv], invoice_items := [], payments := [], clients := []
    users := [], subscriptions := [], audit_logs := [] }

/-- An update request that only asks for status `pending`. -/
def c3Body : UpdateBody :=
  { items := none, due_date := none, notes := none, terms := none
    status := some Status.pending, tax_rate := none, discount_amount := none }

def c3Db2 : DB := (updateInvoice c3Db 2 1 50 c3Body).toOption.getD c3Db

/-- C3 counterexample: a `cancelled` invoice is not terminal — PUT
/api/invoices/:id with `status: 'pending'` succeeds and moves it to
`pending`; the handler only guards `paid`. -/
theorem C3_counterexample :
    (getInvoice c3Db 1).map (fun i => i.status) = some Status.cancelled ∧
    (updateInvoice c3Db 2 1 50 c3Body).toOption.isSome = true ∧
    (getInvoice c3Db2 1).map (fun i => i.status) = some Status.pending :=
  ⟨rfl, rfl, rfl⟩

def c3PaidInv : InvoiceRow :=
  { id := 4, user_id := 2, client_id := 3, invoice_number := "INV-2025-0002"
    status := Status.paid, due_date := 90, subtotal := 0, tax_rate := 0
    tax_amount := 0, discount_amount := 0, total := 0, notes := none
    terms := none, paid_at := some 20, paid_amount := some 0
    payment_method := some manualMethod, reminder_sent_at := none
    reminder_count := 0, created_at := 10 }

def c3DbPaid : DB :=
  { invoices := [c3PaidInv], invoice_items := [], payments := [], clients := []
    users := [], subscriptions := [], audit_logs := [] }

def c3MarkBody : MarkPaidBody := { payment_method := none, notes := none }

/-- C3 amended: only the `paid` status is protected, and only partially —
an update whose body status is not `'paid'` and a delete both fail on a paid
invoice (writing nothing, since the handlers throw before any write), while
mark-paid succeeds on any existing invoice regardless of its status and
always leaves the row `paid`; a `cancelled` invoice is not protected at all
(updates can move it to any status, as the counterexample shows). -/
theorem C3_terminal_guards :
    (∀ (db : DB) (userId id itemIdBase : Nat) (body : UpdateBody) (inv : InvoiceRow),
       db.invoices.find? (fun i => decide (i.id = id ∧ i.user_id = userId)) = some inv →
       inv.status = Status.paid → body.status ≠ some Status.paid →
       updateInvoice db userId id itemIdBase body
         = Except.error ⟨cannotModifyPaidMessage, 400, internalErrorCode⟩) ∧
    (∀ (db : DB) (userId id : Nat) (inv : InvoiceRow),
       db.invoices.find? (fun i => decide (i.id = id ∧ i.user_id = userId)) = some inv →
       inv.status = Status.paid →
       deleteInvoice db userId id
         = Except.error ⟨cannotDeletePaidMessage, 400, internalErrorCode⟩) ∧
    (∀ (db : DB) (userId id paymentId now : Nat) (body : MarkPaidBody) (inv : InvoiceRow),
       db.invoices.find? (fun i => decide (i.id = id ∧ i.user_id = userId)) = some inv →
       (markPaid db userId id paymentId now body).toOption.isSome = true ∧
       ∀ db2, markPaid db userId id paymentId now body = Except.ok db2 →
         ∀ j ∈ db2.invoices, j.id = id → j.status = Status.paid) := by
  refine ⟨?_, ?_, ?_⟩
  · intro db userId id itemIdBase body inv hfind hpaid hbs
    unfold updateInvoice
    rw [hfind]
    dsimp only
    rw [if_pos ⟨hpaid, hbs⟩]
  · intro db userId id inv hfind hpaid
    unfold deleteInvoice
    rw [hfind]
    dsimp only
    rw [if_pos hpaid]
  · intro db userId id paymentId now body inv hfind
    unfold markPaid
    rw [hfind]
    dsimp only
    refine ⟨rfl, ?_⟩
    intro db2 hok j hj hid
    simp only [Except.ok.injEq] at hok
    subst hok
    simp only [List.mem_map] at hj
    obtain ⟨i, hi, hji⟩ := hj
    by_cases hcase : i.id = id
    · rw [if_pos hcase] at hji
      subst hji
      rfl
    · rw [if_neg hcase] at hji
      subst hji
      exact absurd hid hcase

/-- Closed instantiation of `C3_terminal_guards` at a paid fixture: update
to another status fails, delete fails, while a repeated mark-paid still
succeeds. -/
theorem C3_terminal_guards_witness :
    updateInvoice c3DbPaid 2 4 60 c3Body
      = Except.error ⟨cannotModifyPaidMessage, 400, internalErrorCode⟩ ∧
    deleteInvoice c3DbPaid 2 4
      = Except.error ⟨cannotDeletePaidMessage, 400, internalErrorCode⟩ ∧
    (markPaid c3DbPaid 2 4 80 950 c3MarkBody).toOption.isSome = true :=
  ⟨C3_terminal_guards.1 c3DbPaid 2 4 60 c3Body c3PaidInv rfl rfl (by decide),
   C3_terminal_guards.2.1 c3DbPaid 2 4 c3PaidInv rfl rfl,
   (C3_terminal_guards.2.2 c3DbPaid 2 4 80 950 c3MarkBody c3PaidInv rfl).1⟩

def c7SubExtId : String := "sub_1"
def c7CustId : String := "cus_1"

def c7Sub : SubscriptionRow :=
  { id := 1, user_id := 8, stripe_subscription_id := some c7SubExtId
    stripe_customer_id := some c7CustId, plan := Plan.pro
    status := SubStatus.active, cancelled_at := none }

def c7User : UserRow :=
  { id := 8, email := "u@x.com", name := "U", plan := Plan.pro
    plan_expires_at := some 999, stripe_customer_id := some c7CustId
    stripe_subscription_id := some c7SubExtId }

def c7Db : DB :=
  { invoices := [], invoice_items := [], payments := [], clients := []
    users := [c7User], subscriptions := [c7Sub], audit_logs := [] }

def c7Evt : SubscriptionEvent := { id := c7SubExtId, customer := c7CustId }

/-- C7: reconciling a subscription-deleted event marks every subscription
row carrying the event's external subscription id `cancelled` (stamping
`cancelled_at`), downgrades every user found by the processor customer id to
the `free` plan and clears that user's external subscription link, leaves
every non-matching row untouched, and does not touch any other table; the
record-update form of the conclusion shows all other fields of the matched
rows are preserved. -/
theorem C7_subscription_deleted :
    ∀ (db : DB) (evt : SubscriptionEvent) (now : Nat),
      (∀ s ∈ db.subscriptions,
         (s.stripe_subscription_id = some evt.id →
            { s with status := SubStatus.cancelled, cancelled_at := some now }
              ∈ (handleSubscriptionDeleted db evt now).subscriptions) ∧
         (s.stripe_subscription_id ≠ some evt.id →
            s ∈ (handleSubscriptionDeleted db evt now).subscriptions)) ∧
      (∀ u ∈ db.users,
         (u.stripe_customer_id = some evt.customer →
            { u with plan := Plan.free, stripe_subscription_id := none }
              ∈ (handleSubscriptionDeleted db evt now).users) ∧
         (u.stripe_customer_id ≠ some evt.customer →
            u ∈ (handleSubscriptionDeleted db evt now).users)) ∧
      (handleSubscriptionDeleted db evt now).invoices = db.invoices ∧
      (handleSubscriptionDeleted db evt now).invoice_items = db.invoice_items ∧
      (handleSubscriptionDeleted db evt now).payments = db.payments ∧
      (handleSubscriptionDeleted db evt now).clients = db.clients := by
  intro db evt now
  refine ⟨?_, ?_, rfl, rfl, rfl, rfl⟩
  · intro s hs
    constructor
    · intro hmatch
      have hmem := List.mem_map_of_mem (fun s : SubscriptionRow =>
        if s.stripe_subscription_id = some evt.id then
          { s with status := SubStatus.cancelled, cancelled_at := some now }
        else s) hs
      dsimp only at hmem
      rw [if_pos hmatch] at hmem
      exact hmem
    · intro hmiss
      have hmem := List.mem_map_of_mem (fun s : SubscriptionRow =>
        if s.stripe_subscription_id = some evt.id then
          { s with status := SubStatus.cancelled, cancelled_at := some now }
        else s) hs
      dsimp only at hmem
      rw [if_neg hmiss] at hmem
      exact hmem
  · intro u hu
    constructor
    · intro hmatch
      have hmem := List.mem_map_of_mem (fun u : UserRow =>
        if u.stripe_customer_id = some evt.customer then
          { u with plan := Plan.free, stripe_subscription_id := none }
        else u) hu
      dsimp only at hmem
      rw [if_pos hmatch] at hmem
      exact hmem
    · intro hmiss
      have hmem := List.mem_map_of_mem (fun u : UserRow =>
        if u.stripe_customer_id = some evt.customer then
          { u with plan := Plan.free, stripe_subscription_id := none }
        else u) hu
      dsimp only at hmem
      rw [if_neg hmiss] at hmem
      exact hmem

/-- Closed instantiation of `C7_subscription_deleted` at a one-user fixture:
the cancelled subscription row and the downgraded, link-cleared user row are
both present after reconciliation. -/
theorem C7_subscription_deleted_witness :
    ({ c7Sub with status := SubStatus.cancelled, cancelled_at := some 400 }
       ∈ (handleSubscriptionDeleted c7Db c7Evt 400).subscriptions) ∧
    ({ c7User with plan := Plan.free, stripe_subscription_id := none }
       ∈ (handleSubscriptionDeleted c7Db c7Evt 400).users) :=
  ⟨((C7_subscription_deleted c7Db c7Evt 400).1 c7Sub (by decide)).1 rfl,
   ((C7_subscription_deleted c7Db c7Evt 400).2.1 c7User (by decide)).1 rfl⟩

/-- The tenant-number invariant: pairwise-distinct row ids, per-user
pairwise-distinct invoice numbers, and every number of the generated
`INV-<year>-<padded ordinal>` shape with ordinal at least 1. -/
def NumbersOk (l : List InvoiceRow) : Prop :=
  l.Pairwise (fun a b => a.id ≠ b.id ∧ (a.user_id = b.user_id → a.invoice_number ≠ b.invoice_number))
  ∧ ∀ i ∈ l, ∃ y o, 1 ≤ o ∧ i.invoice_number = invoiceNumberFor y o

/-- The `uuidv4()` invoice ids supplied to the create requests of a
sequence. -/
def createIds : List Op → List Nat
  | [] => []
  | Op.create ctx _ :: ops => ctx.invoiceId :: createIds ops
  | Op.del _ _ :: ops => createIds ops

/-- A create request either leaves the `invoices` table unchanged (failure
paths, including the rollback) or prepends exactly the fresh row, and in the
latter case the schema uniqueness check had passed. -/
theorem createInvoice_invoices_cases (ctx : CreateCtx) (db : DB) (body : CreateBody) :
    (createInvoice ctx db body).2.invoices = db.invoices ∨
    ((¬dupCheck db ctx.invoiceId ctx.userId
        (freshInvoice ctx body (userInvoiceCount db ctx.userId)).invoice_number = true) ∧
     (createInvoice ctx db body).2.invoices
       = freshInvoice ctx body (userInvoiceCount db ctx.userId) :: db.invoices) := by
  unfold createInvoice
  dsimp only
  split
  · exact Or.inl rfl
  · split
    · exact Or.inl rfl
    · split
      · exact Or.inl rfl
      · rename_i hdup
        split
        · refine Or.inl ?_
          dsimp only
          rw [List.filter_cons_of_neg (by simp [freshInvoice])]
          exact List.filter_eq_self.mpr (fun i hi => by simpa using (dupCheck_false hdup i hi).1)
        · exact Or.inr ⟨hdup, rfl⟩

/-- A delete request only removes rows. -/
theorem applyOp_del_sublist (db : DB) (uid id : Nat) :
    (applyOp db (Op.del uid id)).invoices.Sublist db.invoices := by
  unfold applyOp
  dsimp only
  cases hdel : deleteInvoice db uid id with
  | error e => exact List.Sublist.refl _
  | ok db1 =>
    unfold deleteInvoice at hdel
    split at hdel
    · simp at hdel
    · split at hdel
      · simp at hdel
      · simp only [Except.ok.injEq] at hdel
        subst hdel
        exact List.filter_sublist _

/-- Every row after one request comes from the previous store, except a row
freshly inserted by a create, which carries that request's invoice id. -/
theorem applyOp_mem_src {db : DB} {op : Op} {j : InvoiceRow}
    (hj : j ∈ (applyOp db op).invoices) :
    j ∈ db.invoices ∨ ∃ ctx body, op = Op.create ctx body ∧ j.id = ctx.invoiceId := by
  cases op with
  | del uid id => exact Or.inl ((applyOp_del_sublist db uid id).subset hj)
  | create ctx body =>
    have hj1 : j ∈ (createInvoice ctx db body).2.invoices := hj
    rcases createInvoice_invoices_cases ctx db body with hcase | ⟨_, hcase⟩
    · rw [hcase] at hj1
      exact Or.inl hj1
    · rw [hcase] at hj1
      rcases List.mem_cons.mp hj1 with hhd | htl
      · exact Or.inr ⟨ctx, body, rfl, by rw [hhd]; rfl⟩
      · exact Or.inl htl

/-- One request preserves the numbering invariant: deletes only shrink the
table, and a successful insert passed the `UNIQUE(user_id, invoice_number)`
and primary-key checks while its number has the generated shape. -/
theorem numbersOk_applyOp {db : DB} (h : NumbersOk db.invoices) (op : Op) :
    NumbersOk (applyOp db op).invoices := by
  cases op with
  | del uid id =>
    have hsub := applyOp_del_sublist db uid id
    exact ⟨h.1.sublist hsub, fun i hi => h.2 i (hsub.subset hi)⟩
  | create ctx body =>
    rcases createInvoice_invoices_cases ctx db body with hcase | ⟨hdup, hcase⟩
    · have heq : (applyOp db (Op.create ctx body)).invoices = db.invoices := hcase
      rw [heq]
      exact h
    · have heq : (applyOp db (Op.create ctx body)).invoices
        = freshInvoice ctx body (userInvoiceCount db ctx.userId) :: db.invoices := hcase
      rw [heq]
      constructor
      · refine List.Pairwise.cons ?_ h.1
        intro b hb
        have hk := dupCheck_false hdup b hb
        exact ⟨fun hid => hk.1 hid.symm, fun huser hnum => hk.2 ⟨huser.symm, hnum.symm⟩⟩
      · intro i hi
        rcases List.mem_cons.mp hi with hhd | htl
        · rw [hhd]
          exact ⟨ctx.year, userInvoiceCount db ctx.userId + 1, by omega, rfl⟩
        · exact h.2 i htl

/-- The numbering invariant is preserved along any request sequence. -/
theorem numbersOk_applyOps {db : DB} (h : NumbersOk db.invoices) (ops : List Op) :
    NumbersOk (applyOps db ops).invoices := by
  induction ops generalizing db with
  | nil => exact h
  | cons op ops ih => exact ih (numbersOk_applyOp h op)

/-- If no current row and no upcoming create uses id `n`, no later row
carries id `n`. -/
theorem applyOps_no_id {db : DB} {ops : List Op} {n : Nat}
    (hdb : ∀ i ∈ db.invoices, i.id ≠ n) (hops : n ∉ createIds ops) :
    ∀ j ∈ (applyOps db ops).invoices, j.id ≠ n := by
  induction ops generalizing db with
  | nil => exact hdb
  | cons op ops ih =>
    have hops1 : n ∉ createIds ops := by
      cases op with
      | create ctx body => exact fun hm => hops (List.mem_cons_of_mem _ hm)
      | del uid id => exact hops
    refine ih ?_ hops1
    intro i hi
    rcases applyOp_mem_src hi with hsrc | ⟨ctx, body, hop, hid⟩
    · exact hdb i hsrc
    · subst hop
      rw [hid]
      intro hcon
      exact hops (hcon ▸ List.mem_cons_self _ _)

/-- In a table with pairwise-distinct ids, two members with the same id are
the same row. -/
theorem pairwise_id_mem_eq {l : List InvoiceRow}
    (hp : l.Pairwise (fun a b => a.id ≠ b.id)) :
    ∀ i ∈ l, ∀ j ∈ l, i.id = j.id → i = j := by
  induction l with
  | nil =>
    intro i hi
    simp at hi
  | cons x xs ih =>
    rw [List.pairwise_cons] at hp
    intro i hi j hj hij
    rcases List.mem_cons.mp hi with hix | hixs
    · rcases List.mem_cons.mp hj with hjx | hjxs
      · rw [hix, hjx]
      · subst hix
        exact absurd hij (hp.1 j hjxs)
    · rcases List.mem_cons.mp hj with hjx | hjxs
      · subst hjx
        exact ((hp.1 i hixs) hij.symm).elim
      · exact ih hp.2 i hixs j hjxs hij

/-- A row present before a request sequence is returned unchanged whenever a
later row carries its id, provided the sequence's create ids are fresh
(mirroring `uuidv4()`): rows are never mutated by create or delete. -/
theorem applyOps_row_fixed :
    ∀ (ops : List Op) (db : DB),
      NumbersOk db.invoices →
      (createIds ops).Nodup →
      (∀ n ∈ createIds ops, ∀ i ∈ db.invoices, i.id ≠ n) →
      ∀ i ∈ db.invoices, ∀ j ∈ (applyOps db ops).invoices, j.id = i.id → j = i := by
  intro ops
  induction ops with
  | nil =>
    intro db hnum _ _ i hi j hj hij
    exact pairwise_id_mem_eq (hnum.1.imp (fun h => h.1)) j hj i hi hij
  | cons op ops ih =>
    intro db hnum hnodup hfresh i hi j hj hij
    have hnum1 : NumbersOk (applyOp db op).invoices := numbersOk_applyOp hnum op
    have hnodup1 : (createIds ops).Nodup := by
      cases op with
      | create ctx body => exact (List.nodup_cons.mp hnodup).2
      | del uid id => exact hnodup
    have hfresh1 : ∀ n ∈ createIds ops, ∀ i2 ∈ (applyOp db op).invoices, i2.id ≠ n := by
      intro n hn i2 hi2
      rcases applyOp_mem_src hi2 with hsrc | ⟨ctx, body, hop, hid⟩
      · refine hfresh n ?_ i2 hsrc
        cases op with
        | create ctx2 body2 => exact List.mem_cons_of_mem _ hn
        | del uid id => exact hn
      · subst hop
        rw [hid]
        intro hcon
        exact (List.nodup_cons.mp hnodup).1 (hcon ▸ hn)
    by_cases hsurv : i ∈ (applyOp db op).invoices
    · exact ih (applyOp db op) hnum1 hnodup1 hfresh1 i hsurv j hj hij
    · exfalso
      have hno : ∀ i2 ∈ (applyOp db op).invoices, i2.id ≠ i.id := by
        intro i2 hi2 hcon
        rcases applyOp_mem_src hi2 with hsrc | ⟨ctx, body, hop, hid⟩
        · have heq : i2 = i :=
            pairwise_id_mem_eq (hnum.1.imp (fun h => h.1)) i2 hsrc i hi hcon
          exact hsurv (heq ▸ hi2)
        · subst hop
          exact hfresh ctx.invoiceId (List.mem_cons_self _ _) i hi (hcon ▸ hid)
      have hidn : i.id ∉ createIds ops := by
        intro hmem
        refine hfresh i.id ?_ i hi rfl
        cases op with
        | create ctx body => exact List.mem_cons_of_mem _ hmem
        | del uid id => exact hmem
      exact applyOps_no_id hno hidn j hj hij

/-- C5: over any sequence of create and delete requests from an
invoice-free store, the stored invoice numbers are pairwise distinct within
each tenant and each has the `INV-<year>-<zero-left-padded 4-digit
ordinal>` shape with ordinal at least 1 (the insert is rejected by
`UNIQUE(user_id, invoice_number)` when the counter-derived candidate
collides); and, for fresh create ids, a row present before a request
sequence that is still present afterwards is entirely unchanged — in
particular its number is never rewritten. -/
theorem C5_invoice_numbers :
    (∀ (init : DB) (ops : List Op), init.invoices = [] →
       NumbersOk (applyOps init ops).invoices) ∧
    (∀ (db : DB) (ops : List Op),
       NumbersOk db.invoices →
       (createIds ops).Nodup →
       (∀ n ∈ createIds ops, ∀ i ∈ db.invoices, i.id ≠ n) →
       ∀ i ∈ db.invoices, ∀ j ∈ (applyOps db ops).invoices,
         j.id = i.id → j.invoice_number = i.invoice_number) := by
  constructor
  · intro init ops hempty
    refine numbersOk_applyOps ?_ ops
    rw [hempty]
    exact ⟨List.Pairwise.nil, by simp⟩
  · intro db ops hnum hnodup hfresh i hi j hj hij
    rw [applyOps_row_fixed ops db hnum hnodup hfresh i hi j hj hij]

def c5Client : ClientRow := { id := 6, user_id := 11, name := "N", email := "n@x.com" }

def c5Init : DB :=
  { invoices := [], invoice_items := [], payments := [], clients := [c5Client]
    users := [], subscriptions := [], audit_logs := [] }

def c5Ctx : CreateCtx :=
  { userId := 11, plan := Plan.pro, now := 5, year := 2025, monthStart := 1
    invoiceId := 31, itemIdBase := 310, itemsInsertFails := false }

def c5CreateBody : CreateBody :=
  { client_id := 6, items := [⟨"G", 1, 2⟩], due_date := 9
    notes := none, terms := none, tax_rate := none, discount_amount := none }

def c5Ops : List Op := [Op.create c5Ctx c5CreateBody, Op.del 11 31]

def c5BaseRow : InvoiceRow :=
  { id := 3, user_id := 11, client_id := 6, invoice_number := invoiceNumberFor 2025 1
    status := Status.pending, due_date := 9, subtotal := 0, tax_rate := 0
    tax_amount := 0, discount_amount := 0, total := 0, notes := none
    terms := none, paid_at := none, paid_amount := none, payment_method := none
    reminder_sent_at := none, reminder_count := 0, created_at := 2 }

def c5Base : DB :=
  { invoices := [c5BaseRow], invoice_items := [], payments := [], clients := [c5Client]
    users := [], subscriptions := [], audit_logs := [] }

theorem c5Base_numbersOk : NumbersOk c5Base.invoices := by
  constructor
  · simp [c5Base]
  · intro i hi
    simp only [c5Base, List.mem_singleton] at hi
    subst hi
    exact ⟨2025, 1, le_refl 1, rfl⟩

/-- Closed instantiation of `C5_invoice_numbers`: the invariant holds after
a concrete create-then-delete run from an empty store, and a no-op sequence
over a one-invoice store leaves that row's number intact. -/
theorem C5_invoice_numbers_witness :
    NumbersOk (applyOps c5Init c5Ops).invoices ∧
    c5BaseRow.invoice_number = c5BaseRow.invoice_number :=
  ⟨C5_invoice_numbers.1 c5Init c5Ops rfl,
   C5_invoice_numbers.2 c5Base [Op.del 11 77] c5Base_numbersOk (by simp [createIds])
     (by simp [createIds]) c5BaseRow (by simp [c5Base]) c5BaseRow (by decide) rfl⟩

/-- C10: POST /api/invoices/:id/mark-paid derives both the invoice's
`paid_amount` and the inserted payment record's `amount` from the stored
`invoice.total`; the request body is only read for `payment_method`
(defaulting to `'manual'`) and `notes` — the source destructures nothing
else from `req.body`, so a caller-supplied amount is ignored (there is no
such field to model). -/
theorem C10_markPaid_amount :
    ∀ (db : DB) (userId id paymentId now : Nat) (body : MarkPaidBody)
      (inv : InvoiceRow) (db2 : DB),
      db.invoices.find? (fun i => decide (i.id = id ∧ i.user_id = userId)) = some inv →
      markPaid db userId id paymentId now body = Except.ok db2 →
      (∀ j ∈ db2.invoices, j.id = id →
         j.paid_amount = some inv.total ∧ j.paid_at = some now ∧
         j.payment_method = some (body.payment_method.getD manualMethod)) ∧
      db2.payments = db.payments ++
        [{ id := paymentId, invoice_id := id, user_id := userId, amount := inv.total
           payment_method := body.payment_method.getD manualMethod
           stripe_payment_id := none, status := PayStatus.completed, notes := body.notes }] := by
  intro db userId id paymentId now body inv db2 hfind hok
  unfold markPaid at hok
  rw [hfind] at hok
  dsimp only at hok
  simp only [Except.ok.injEq] at hok
  subst hok
  refine ⟨?_, rfl⟩
  intro j hj hid
  simp only [List.mem_map] at hj
  obtain ⟨i, hi, hji⟩ := hj
  by_cases hcase : i.id = id
  · rw [if_pos hcase] at hji
    subst hji
    exact ⟨rfl, rfl, rfl⟩
  · rw [if_neg hcase] at hji
    subst hji
    exact absurd hid hcase

def c10Inv : InvoiceRow :=
  { id := 1, user_id := 2, client_id := 3, invoice_number := "INV-2025-0007"
    status := Status.pending, due_date := 90, subtotal := 7, tax_rate := 0
    tax_amount := 0, discount_amount := 0, total := 7, notes := none
    terms := none, paid_at := none, paid_amount := none, payment_method := none
    reminder_sent_at := none, reminder_count := 0, created_at := 10 }

def c10Db : DB :=
  { invoices := [c10Inv], invoice_items := [], payments := [], clients := []
    users := [], subscriptions := [], audit_logs := [] }

def c10Body : MarkPaidBody := { payment_method := none, notes := none }

def c10Db2 : DB := (markPaid c10Db 2 1 90 960 c10Body).toOption.getD c10Db

/-- Closed instantiation of `C10_markPaid_amount`: the appended payment row
carries the invoice's stored total and the defaulted `'manual'` method. -/
theorem C10_markPaid_amount_witness :
    c10Db2.payments = c10Db.payments ++
      [{ id := 90, invoice_id := 1, user_id := 2, amount := c10Inv.total
         payment_method := c10Body.payment_method.getD manualMethod
         stripe_payment_id := none, status := PayStatus.completed, notes := c10Body.notes }] :=
  (C10_markPaid_amount c10Db 2 1 90 960 c10Body c10Inv c10Db2 rfl rfl).2

end InvoiceFlow
